import Mathlib

/-!
# Shallow embedding of the portfolio backend (`src/main.py`)

This file models the FastAPI service in `src/main.py`: the four content
tables (projects, skills, experience, research) with their CRUD endpoints,
the admin-credential singleton with login / update, and the in-memory OTP
password-reset flow (`OTP_STORE`, `forgot_password`, `verify_otp`,
`reset_password`).

Modelling choices:
* A database table is a `List` of rows; SQLAlchemy's
  `query(...).filter(cond).first()` is `List.find?`, mutation of the matched
  row is "replace the first matching row", `db.delete(row)` is "erase the
  first matching row".
* The Python dict `OTP_STORE` is an association list observed only through
  lookup, membership, assignment (overwrite) and deletion.
* `raise HTTPException(status, detail)` becomes `Failure.http status detail`;
  a pydantic request-validation failure (the `field_validator` on
  `new_password` of `ResetPasswordRequest`) becomes `Failure.validation msg`
  and is applied before the endpoint body runs, exactly as FastAPI parses
  the request body before invoking the handler.
* Python `str.strip()` is `String.trim` (surrounding-whitespace removal).
* The random 6-digit code of `forgot_password` and the success of the SMTP
  dispatch are externalized as parameters.
-/

set_option autoImplicit false

namespace Portfolio

/-- Row of the `projects` table (`ProjectDB` / pydantic `Project`). -/
structure Project where
  id : String
  title : String
  description : String
  stack : List String
  code : String
  image : String
  snippet : String
  deriving DecidableEq, Repr

/-- One entry of a skill category's `skills` JSON column (`SkillItem`). -/
structure SkillItem where
  name : String
  percent : Int
  deriving DecidableEq, Repr

/-- Row of the `skills` table (`SkillDB` / pydantic `SkillCategory`). -/
structure SkillCategory where
  name : String
  icon : String
  skills : List SkillItem
  deriving DecidableEq, Repr

/-- Row of the `experience` table (`ExperienceDB` / `ExperienceItem`). -/
structure ExperienceItem where
  role : String
  company : String
  type : String
  duration : String
  deriving DecidableEq, Repr

/-- Row of the `research` table (`ResearchDB` / pydantic `Research`). -/
structure Research where
  title : String
  short_description : String
  author : String
  link : String
  deriving DecidableEq, Repr

/-- Row of the `admin` table (`AdminDB`): the credential singleton. -/
structure AdminCred where
  username : String
  password : String
  deriving DecidableEq, Repr

/-- Outcome of a failed request: either `raise HTTPException(status, detail)`
inside a handler, or a pydantic request-validation error (FastAPI answers 422
before the handler runs). -/
inductive Failure where
  | http (status : Nat) (detail : String)
  | validation (detail : String)
  deriving DecidableEq, Repr

/-- The characters removed by Python's `str.strip()` with no argument
(ASCII whitespace: space, tab, newline, carriage return, vertical tab,
form feed). -/
def isPySpace (c : Char) : Bool :=
  c == ' ' || c == '\t' || c == '\n' || c == '\r' ||
    c == Char.ofNat 11 || c == Char.ofNat 12

/-- Python `s.strip()`: remove leading and trailing whitespace. -/
def pyStrip (s : String) : String :=
  ⟨((s.data.dropWhile isPySpace).reverse.dropWhile isPySpace).reverse⟩

/-- Replace the first element satisfying `p` by its image under `f`
(SQLAlchemy: mutate the row returned by `.first()`). -/
def setFirst {α : Type} (p : α → Bool) (f : α → α) : List α → List α
  | [] => []
  | x :: xs => if p x then f x :: xs else x :: setFirst p f xs

/-- Drop the first element satisfying `p` (`db.delete(matched_row)`). -/
def dropFirst {α : Type} (p : α → Bool) : List α → List α
  | [] => []
  | x :: xs => if p x then xs else x :: dropFirst p xs

-- -------------------- CRUD endpoints --------------------

/-- `DELETE /projects/{project_id}` (`delete_project`, main.py 161-168). -/
def delete_project (db : List Project) (project_id : String) :
    Except Failure String × List Project :=
  match db.find? (fun p => p.id == project_id) with
  | none => (.error (.http 404 "Project not found"), db)
  | some _ => (.ok "Project deleted", dropFirst (fun p => p.id == project_id) db)

/-- `DELETE /skills/{name}` (`delete_skill`, main.py 193-200). -/
def delete_skill (db : List SkillCategory) (name : String) :
    Except Failure String × List SkillCategory :=
  match db.find? (fun s => s.name == name) with
  | none => (.error (.http 404 "Skill not found"), db)
  | some _ => (.ok "Skill deleted", dropFirst (fun s => s.name == name) db)

/-- `DELETE /experience/{role}` (`delete_experience`, main.py 230-237). -/
def delete_experience (db : List ExperienceItem) (role : String) :
    Except Failure String × List ExperienceItem :=
  match db.find? (fun e => e.role == role) with
  | none => (.error (.http 404 "Experience not found"), db)
  | some _ => (.ok "Experience deleted", dropFirst (fun e => e.role == role) db)

/-- `DELETE /research/{title}` (`delete_research`, main.py 267-274). -/
def delete_research (db : List Research) (title : String) :
    Except Failure String × List Research :=
  match db.find? (fun r => r.title == title) with
  | none => (.error (.http 404 "Research not found"), db)
  | some _ => (.ok "Research deleted", dropFirst (fun r => r.title == title) db)

/-- `PUT /projects/{project_id}` (`update_project`, main.py 151-159).
The handler runs `setattr(proj, key, value)` for every field of the payload,
`id` included, so the matched row becomes the payload wholesale. -/
def update_project (db : List Project) (project_id : String) (updated : Project) :
    Except Failure Project × List Project :=
  match db.find? (fun p => p.id == project_id) with
  | none => (.error (.http 404 "Project not found"), db)
  | some _ => (.ok updated, setFirst (fun p => p.id == project_id) (fun _ => updated) db)

/-- `PUT /skills/{name}` (`update_skill`, main.py 183-191).
Only `icon` and `skills` are assigned; the matched row keeps its `name`. -/
def update_skill (db : List SkillCategory) (name : String) (updated : SkillCategory) :
    Except Failure SkillCategory × List SkillCategory :=
  match db.find? (fun s => s.name == name) with
  | none => (.error (.http 404 "Skill not found"), db)
  | some _ =>
    (.ok updated,
      setFirst (fun s => s.name == name)
        (fun s => { name := s.name, icon := updated.icon, skills := updated.skills }) db)

/-- `PUT /experience/{role}` (`update_experience`, main.py 220-228).
`setattr` over every payload field, `role` included. -/
def update_experience (db : List ExperienceItem) (role : String) (updated : ExperienceItem) :
    Except Failure ExperienceItem × List ExperienceItem :=
  match db.find? (fun e => e.role == role) with
  | none => (.error (.http 404 "Experience not found"), db)
  | some _ => (.ok updated, setFirst (fun e => e.role == role) (fun _ => updated) db)

/-- `PUT /research/{title}` (`update_research`, main.py 257-265).
`setattr` over every payload field, `title` included. -/
def update_research (db : List Research) (title : String) (updated : Research) :
    Except Failure Research × List Research :=
  match db.find? (fun r => r.title == title) with
  | none => (.error (.http 404 "Research not found"), db)
  | some _ => (.ok updated, setFirst (fun r => r.title == title) (fun _ => updated) db)

-- -------------------- first-match lemmas --------------------

theorem find?_split_first {α : Type} (p : α → Bool) (pre post : List α) (row : α)
    (hpre : ∀ x ∈ pre, p x = false) (hrow : p row = true) :
    (pre ++ row :: post).find? p = some row := by
  induction pre with
  | nil => simp [List.find?_cons, hrow]
  | cons a as ih =>
    have ha : p a = false := hpre a (by simp)
    simp only [List.cons_append, List.find?_cons, ha, cond_false]
    exact ih (fun x hx => hpre x (by simp [hx]))

theorem dropFirst_split {α : Type} (p : α → Bool) (pre post : List α) (row : α)
    (hpre : ∀ x ∈ pre, p x = false) (hrow : p row = true) :
    dropFirst p (pre ++ row :: post) = pre ++ post := by
  induction pre with
  | nil => simp [dropFirst, hrow]
  | cons a as ih =>
    have ha : p a = false := hpre a (by simp)
    simp only [List.cons_append, dropFirst, ha, Bool.false_eq_true, if_false]
    exact congrArg (List.cons a) (ih (fun x hx => hpre x (by simp [hx])))

theorem setFirst_split {α : Type} (p : α → Bool) (f : α → α) (pre post : List α) (row : α)
    (hpre : ∀ x ∈ pre, p x = false) (hrow : p row = true) :
    setFirst p f (pre ++ row :: post) = pre ++ f row :: post := by
  induction pre with
  | nil => simp [setFirst, hrow]
  | cons a as ih =>
    have ha : p a = false := hpre a (by simp)
    simp only [List.cons_append, setFirst, ha, Bool.false_eq_true, if_false]
    exact congrArg (List.cons a) (ih (fun x hx => hpre x (by simp [hx])))

theorem find?_none_of_all_false {α : Type} (p : α → Bool) (l : List α)
    (h : ∀ x ∈ l, p x = false) : l.find? p = none := by
  rw [List.find?_eq_none]
  intro x hx
  simp [h x hx]

-- -------------------- OTP_STORE as a dict --------------------

/-- The in-memory dict `OTP_STORE` (main.py 302): an association list from
email to code, observed only through the operations below. -/
abbrev OtpStore : Type := List (String × String)

/-- `OTP_STORE.get(k)` / combined `k in OTP_STORE` + `OTP_STORE[k]`. -/
def dictGet (d : OtpStore) (k : String) : Option String :=
  (d.find? (fun kv => kv.fst == k)).map (fun kv => kv.snd)

/-- `del OTP_STORE[k]` (also used to realize overwrite). -/
def dictDel (d : OtpStore) (k : String) : OtpStore :=
  d.filter (fun kv => !(kv.fst == k))

/-- `OTP_STORE[k] = v`: overwriting assignment. -/
def dictSet (d : OtpStore) (k v : String) : OtpStore :=
  (k, v) :: dictDel d k

-- -------------------- admin / auth state --------------------

/-- Combined mutable state of the auth flow: the `admin` table and the
in-memory `OTP_STORE`. -/
structure AuthState where
  admins : List AdminCred
  otpStore : OtpStore
  deriving DecidableEq, Repr

/-- `fetch_admin` (main.py 119-123): first row of the `admin` table, or an
empty placeholder when the table is empty. -/
def fetch_admin (admins : List AdminCred) : AdminCred :=
  match admins.head? with
  | some a => a
  | none => { username := "", password := "" }

/-- `POST /login` (`login`, main.py 277-282): both fields are compared after
`strip()` against the fetched singleton. Pure: no state is written. -/
def login (admins : List AdminCred) (username password : String) :
    Except Failure String :=
  let admin := fetch_admin admins
  if pyStrip username == pyStrip admin.username && pyStrip password == pyStrip admin.password then
    .ok "Login successful"
  else
    .error (.http 401 "Invalid username or password")

/-- `PUT /update-admin-credential` (`update_admin`, main.py 291-299). -/
def update_admin (s : AuthState) (old_u old_p new_u new_p : String) :
    Except Failure String × AuthState :=
  match s.admins.find? (fun a => a.username == old_u) with
  | none => (.error (.http 401 "Old credentials incorrect"), s)
  | some a =>
    if old_p != a.password then
      (.error (.http 401 "Old credentials incorrect"), s)
    else
      let admins2 := setFirst (fun x => x.username == old_u)
        (fun _ => { username := new_u, password := new_p }) s.admins
      (.ok "Admin credentials updated", { s with admins := admins2 })

-- -------------------- OTP flow --------------------

/-- The `field_validator` on `ResetPasswordRequest.new_password`
(main.py 333-342): `re.search("[A-Z]", v)`. -/
def hasUpper (v : String) : Bool :=
  v.data.any (fun c => decide ( 'A' ≤ c) && decide (c ≤ 'Z'))

/-- `re.search("[0-9]", v)`. -/
def hasDigit (v : String) : Bool :=
  v.data.any (fun c => decide ( '0' ≤ c) && decide (c ≤ '9'))

/-- `re.search("[@$!%*?&]", v)`. -/
def hasSpecial (v : String) : Bool :=
  v.data.any (fun c =>
    c == '@' || c == '$' || c == '!' ||
    c == '%' || c == '*' || c == '?' || c == '&')

/-- `ResetPasswordRequest.validate_new_password` (main.py 333-342): the three
policy rules in source order; a `ValueError` surfaces as a 422 validation
failure before the handler runs. -/
def validate_new_password (v : String) : Except Failure String :=
  if !(hasUpper v) then
    .error (.validation "Password must contain at least 1 uppercase letter")
  else if !(hasDigit v) then
    .error (.validation "Password must contain at least 1 number")
  else if !(hasSpecial v) then
    .error (.validation "Password must contain at least 1 special character")
  else
    .ok v

/-- Request body of `POST /reset-password` (`ResetPasswordRequest`). -/
structure ResetPasswordRequest where
  email : String
  otp : String
  new_password : String
  confirm_password : String
  deriving DecidableEq, Repr

/-- Pydantic parsing of a `ResetPasswordRequest` body: the only repo-defined
validator is the one on `new_password`. -/
def parseResetPasswordRequest (r : ResetPasswordRequest) :
    Except Failure ResetPasswordRequest :=
  match validate_new_password r.new_password with
  | .error e => .error e
  | .ok _ => .ok r

/-- `POST /forgot-password` (`forgot_password`, main.py 344-352). The random
code and the success of the SMTP dispatch are passed in as parameters; note
the source stores the code *before* dispatching the email, so a failed
dispatch leaves the stored code behind. -/
def forgot_password (s : AuthState) (email otp : String) (emailOk : Bool) :
    Except Failure String × AuthState :=
  let admin := fetch_admin s.admins
  if email != admin.username then
    (.error (.http 404 "Email not registered"), s)
  else
    let s1 : AuthState := { s with otpStore := dictSet s.otpStore email otp }
    if emailOk then
      (.ok "OTP sent to email", s1)
    else
      (.error (.http 500 "Failed to send OTP"), s1)

/-- `POST /verify-otp` (`verify_otp`, main.py 354-358): a pure check of
`OTP_STORE`; it returns the state untouched in both branches. -/
def verify_otp (s : AuthState) (email otp : String) :
    Except Failure String × AuthState :=
  match dictGet s.otpStore email with
  | none => (.error (.http 400 "Invalid or expired OTP"), s)
  | some code =>
    if code != otp then
      (.error (.http 400 "Invalid or expired OTP"), s)
    else
      (.ok "OTP verified", s)

/-- Body of `POST /reset-password` (`reset_password`, main.py 360-372), after
the request body has been parsed: OTP check, mismatch check, admin lookup,
then password write plus `del OTP_STORE[req.email]`. -/
def reset_password (s : AuthState) (req : ResetPasswordRequest) :
    Except Failure String × AuthState :=
  match dictGet s.otpStore req.email with
  | none => (.error (.http 400 "Invalid or expired OTP"), s)
  | some code =>
    if code != req.otp then
      (.error (.http 400 "Invalid or expired OTP"), s)
    else if req.new_password != req.confirm_password then
      (.error (.http 400 "Passwords do not match"), s)
    else
      match s.admins.find? (fun a => a.username == req.email) with
      | none => (.error (.http 404 "Admin not found"), s)
      | some _ =>
        (.ok "Password reset successful",
          { admins := setFirst (fun a => a.username == req.email)
              (fun a => { username := a.username, password := req.new_password }) s.admins,
            otpStore := dictDel s.otpStore req.email })

/-- Full `POST /reset-password` pipeline as a caller observes it: pydantic
parses (and policy-checks `new_password`) first, then the handler runs. -/
def reset_password_endpoint (s : AuthState) (req : ResetPasswordRequest) :
    Except Failure String × AuthState :=
  match parseResetPasswordRequest req with
  | .error e => (.error e, s)
  | .ok r => reset_password s r

-- -------------------- operation traces --------------------

/-- One request to the auth part of the service. -/
inductive AuthOp where
  | forgot (email otp : String) (emailOk : Bool)
  | verify (email otp : String)
  | reset (req : ResetPasswordRequest)
  | loginReq (username password : String)
  | updateAdmin (old_u old_p new_u new_p : String)
  deriving DecidableEq, Repr

/-- State transition of one request (`login` reads but never writes). -/
def applyOp (op : AuthOp) (s : AuthState) : AuthState :=
  match op with
  | .forgot e c ok => (forgot_password s e c ok).2
  | .verify e c => (verify_otp s e c).2
  | .reset req => (reset_password_endpoint s req).2
  | .loginReq _ _ => s
  | .updateAdmin a b c d => (update_admin s a b c d).2

/-- Run a sequence of requests. -/
def runOps (ops : List AuthOp) (s : AuthState) : AuthState :=
  ops.foldl (fun st op => applyOp op st) s

/-- A request together with its arrival time (seconds). None of the handlers
reads a clock and `OTP_STORE` keeps no issued-at timestamp (main.py 302,
349-350), so the time component is ignored by the transition. -/
def applyTimedOp (op : AuthOp) (_t : Nat) (s : AuthState) : AuthState :=
  applyOp op s

/-- Run a time-stamped trace of requests. -/
def runTimed (timed : List (AuthOp × Nat)) (s : AuthState) : AuthState :=
  timed.foldl (fun st p => applyTimedOp p.fst p.snd st) s

/-- Does this request write the OTP record of `e`? Only `forgot_password`
for `e` and (successful) `reset_password` for `e` can. -/
def touchesOtp (e : String) : AuthOp → Bool
  | .forgot e2 _ _ => e2 == e
  | .reset req => req.email == e
  | _ => false

-- -------------------- dict lemmas --------------------

theorem dictGet_del_self (d : OtpStore) (k : String) :
    dictGet (dictDel d k) k = none := by
  induction d with
  | nil => rfl
  | cons a t ih =>
    by_cases ha : a.fst = k
    · have hb : (!(a.fst == k)) = false := by simp [ha]
      simp only [dictDel, List.filter_cons, hb, Bool.false_eq_true, if_false]
      exact ih
    · have hb : (a.fst == k) = false := by simp [ha]
      simp [dictDel, dictGet, List.find?_cons, hb, ih]

theorem find?_filter_key_ne (t : OtpStore) (k e : String) (h : k ≠ e) :
    (t.filter (fun kv => !(kv.fst == k))).find? (fun kv => kv.fst == e)
      = t.find? (fun kv => kv.fst == e) := by
  induction t with
  | nil => rfl
  | cons a t ih =>
    by_cases ha : a.fst = k
    · have hne : a.fst ≠ e := by rw [ha]; exact h
      simp [List.filter_cons, ha, hne, ih, h]
    · by_cases hae : a.fst = e
      · simp [List.filter_cons, ha, hae, h.symm]
      · simp [List.filter_cons, ha, hae, ih]

theorem dictGet_del_ne (d : OtpStore) (k e : String) (h : k ≠ e) :
    dictGet (dictDel d k) e = dictGet d e := by
  unfold dictGet dictDel
  rw [find?_filter_key_ne d k e h]

theorem dictGet_set_self (d : OtpStore) (k v : String) :
    dictGet (dictSet d k v) k = some v := by
  simp [dictSet, dictGet, List.find?_cons]

theorem dictGet_set_ne (d : OtpStore) (k v e : String) (h : k ≠ e) :
    dictGet (dictSet d k v) e = dictGet d e := by
  have hb : (k == e) = false := by simp [h]
  simp only [dictSet, dictGet, List.find?_cons, hb, cond_false]
  exact dictGet_del_ne d k e h

theorem filter_dictSet (d : OtpStore) (k v : String) :
    (dictSet d k v).filter (fun kv => kv.fst == k) = [(k, v)] := by
  simp only [dictSet, dictDel, List.filter_cons, beq_self_eq_true, if_pos, List.filter_filter]
  have h : ∀ kv : String × String, ((kv.fst == k) && !(kv.fst == k)) = false := by
    intro kv
    by_cases hk : kv.fst = k <;> simp [hk]
  simp [h]

-- -------------------- reset pipeline lemmas --------------------

theorem parse_ok_of_valid (r : ResetPasswordRequest)
    (h : (validate_new_password r.new_password).isOk = true) :
    parseResetPasswordRequest r = .ok r := by
  unfold parseResetPasswordRequest
  cases hv : validate_new_password r.new_password with
  | error e => rw [hv] at h; simp [Except.isOk, Except.toBool] at h
  | ok w => rfl

theorem parse_error (r : ResetPasswordRequest) (e : Failure)
    (h : validate_new_password r.new_password = .error e) :
    parseResetPasswordRequest r = .error e := by
  unfold parseResetPasswordRequest
  rw [h]

/-- `verify_otp` never writes state. -/
theorem verify_otp_snd (s : AuthState) (email otp : String) :
    (verify_otp s email otp).2 = s := by
  unfold verify_otp
  cases dictGet s.otpStore email with
  | none => rfl
  | some code =>
    by_cases h : (code != otp) = true <;> simp [h]

/-- Case analysis of the `reset_password` handler body: either it fails and
returns the state untouched, or all checks passed and it performs exactly the
password write and the OTP deletion. -/
theorem reset_password_cases (s : AuthState) (req : ResetPasswordRequest) :
    ((reset_password s req).1.isOk = false ∧ (reset_password s req).2 = s)
    ∨ ((reset_password s req).1 = .ok "Password reset successful"
        ∧ dictGet s.otpStore req.email = some req.otp
        ∧ req.new_password = req.confirm_password
        ∧ ((s.admins.find? (fun a => a.username == req.email)).isSome = true)
        ∧ (reset_password s req).2
            = { admins := setFirst (fun a => a.username == req.email)
                  (fun a => { username := a.username, password := req.new_password }) s.admins,
                otpStore := dictDel s.otpStore req.email }) := by
  cases hg : dictGet s.otpStore req.email with
  | none =>
    refine Or.inl ⟨?_, ?_⟩ <;> simp [reset_password, hg, Except.isOk, Except.toBool]
  | some code =>
    by_cases hc : code = req.otp
    · by_cases hm : req.new_password = req.confirm_password
      · cases hf : s.admins.find? (fun a => a.username == req.email) with
        | none =>
          refine Or.inl ⟨?_, ?_⟩ <;>
            simp [reset_password, hg, hc, hm, hf, Except.isOk, Except.toBool]
        | some a =>
          refine Or.inr ⟨?_, ?_, hm, ?_, ?_⟩ <;>
            simp [reset_password, hg, hc, hm, hf, Except.isOk, Except.toBool]
      · refine Or.inl ⟨?_, ?_⟩ <;>
          simp [reset_password, hg, hc, hm, Except.isOk, Except.toBool]
    · refine Or.inl ⟨?_, ?_⟩ <;>
        simp [reset_password, hg, hc, Except.isOk, Except.toBool]

/-- The full pipeline never writes state on any failure. -/
theorem reset_endpoint_error_snd (s : AuthState) (req : ResetPasswordRequest)
    (h : (reset_password_endpoint s req).1.isOk = false) :
    (reset_password_endpoint s req).2 = s := by
  cases hp : parseResetPasswordRequest req with
  | error e => simp [reset_password_endpoint, hp]
  | ok r =>
    have h2 : (reset_password s r).1.isOk = false := by
      simpa [reset_password_endpoint, hp] using h
    rcases reset_password_cases s r with ⟨_, hs⟩ | ⟨h1, _⟩
    · simpa [reset_password_endpoint, hp] using hs
    · rw [h1] at h2; simp [Except.isOk, Except.toBool] at h2

/-- A mismatching but policy-valid request with a live matching OTP fails
with the mismatch error and leaves the state untouched. -/
theorem reset_endpoint_mismatch (s : AuthState) (req : ResetPasswordRequest)
    (hotp : dictGet s.otpStore req.email = some req.otp)
    (hval : (validate_new_password req.new_password).isOk = true)
    (hne : req.new_password ≠ req.confirm_password) :
    reset_password_endpoint s req = (.error (.http 400 "Passwords do not match"), s) := by
  have hp := parse_ok_of_valid req hval
  simp [reset_password_endpoint, hp, reset_password, hotp, hne]

-- -------------------- C1 --------------------

/-- C1, counterexample: the claim says `delete(kind, key)` of an absent key
returns success. On the code, deleting a project id absent from the store
returns the 404 error `Project not found`, not success. -/
theorem C1_counterexample :
    delete_project ([] : List Project) "missing"
        = (.error (.http 404 "Project not found"), [])
      ∧ (delete_project ([] : List Project) "missing").1.isOk = false :=
  ⟨rfl, rfl⟩

/-- C1 (amended): for every content kind, deleting an existing key removes
the first matching row and returns success, while deleting an absent key
fails with a 404 NotFound error — not success — and leaves the store
unchanged. -/
theorem C1_delete_semantics :
    (∀ (db : List Project) (key : String), (∀ p ∈ db, (p.id == key) = false) →
        delete_project db key = (.error (.http 404 "Project not found"), db))
    ∧ (∀ (pre post : List Project) (row : Project) (key : String),
        (∀ p ∈ pre, (p.id == key) = false) → (row.id == key) = true →
        delete_project (pre ++ row :: post) key = (.ok "Project deleted", pre ++ post))
    ∧ (∀ (db : List SkillCategory) (key : String), (∀ c ∈ db, (c.name == key) = false) →
        delete_skill db key = (.error (.http 404 "Skill not found"), db))
    ∧ (∀ (pre post : List SkillCategory) (row : SkillCategory) (key : String),
        (∀ c ∈ pre, (c.name == key) = false) → (row.name == key) = true →
        delete_skill (pre ++ row :: post) key = (.ok "Skill deleted", pre ++ post))
    ∧ (∀ (db : List ExperienceItem) (key : String), (∀ e ∈ db, (e.role == key) = false) →
        delete_experience db key = (.error (.http 404 "Experience not found"), db))
    ∧ (∀ (pre post : List ExperienceItem) (row : ExperienceItem) (key : String),
        (∀ e ∈ pre, (e.role == key) = false) → (row.role == key) = true →
        delete_experience (pre ++ row :: post) key = (.ok "Experience deleted", pre ++ post))
    ∧ (∀ (db : List Research) (key : String), (∀ r ∈ db, (r.title == key) = false) →
        delete_research db key = (.error (.http 404 "Research not found"), db))
    ∧ (∀ (pre post : List Research) (row : Research) (key : String),
        (∀ r ∈ pre, (r.title == key) = false) → (row.title == key) = true →
        delete_research (pre ++ row :: post) key = (.ok "Research deleted", pre ++ post)) := by
  refine ⟨?_, ?_, ?_, ?_, ?_, ?_, ?_, ?_⟩
  · intro db key h
    rw [delete_project, find?_none_of_all_false _ _ h]
  · intro pre post row key hpre hrow
    rw [delete_project, find?_split_first _ _ _ _ hpre hrow,
      dropFirst_split _ _ _ _ hpre hrow]
  · intro db key h
    rw [delete_skill, find?_none_of_all_false _ _ h]
  · intro pre post row key hpre hrow
    rw [delete_skill, find?_split_first _ _ _ _ hpre hrow,
      dropFirst_split _ _ _ _ hpre hrow]
  · intro db key h
    rw [delete_experience, find?_none_of_all_false _ _ h]
  · intro pre post row key hpre hrow
    rw [delete_experience, find?_split_first _ _ _ _ hpre hrow,
      dropFirst_split _ _ _ _ hpre hrow]
  · intro db key h
    rw [delete_research, find?_none_of_all_false _ _ h]
  · intro pre post row key hpre hrow
    rw [delete_research, find?_split_first _ _ _ _ hpre hrow,
      dropFirst_split _ _ _ _ hpre hrow]

/-- C1, witness: the amended theorem applied at concrete inputs — an
existing project is deleted with success; an absent skill category yields
the 404 error. -/
theorem C1_delete_semantics_witness :
    delete_project [⟨"p1", "t", "d", ["x"], "c", "i", "s"⟩] "p1" = (.ok "Project deleted", [])
    ∧ delete_skill ([] : List SkillCategory) "cat"
        = (.error (.http 404 "Skill not found"), []) := by
  constructor
  · exact C1_delete_semantics.2.1 [] [] ⟨"p1", "t", "d", ["x"], "c", "i", "s"⟩ "p1"
      (by intro p hp; cases hp) (by rfl)
  · exact C1_delete_semantics.2.2.1 [] "cat" (by intro c hc; cases hc)

-- -------------------- C2 --------------------

/-- C2, counterexample: the claim says `update` leaves the matched row's key
field unchanged even when the payload carries a different key. On the code,
updating project `p1` with a payload whose id is `p2` renames the stored row
to `p2`. -/
theorem C2_counterexample :
    (update_project [⟨"p1", "t", "d", ["x"], "c", "i", "s"⟩] "p1"
          ⟨"p2", "t2", "d2", ["y"], "c2", "i2", "s2"⟩).2.map (fun p => p.id) = ["p2"]
      ∧ ("p2" : String) ≠ "p1" :=
  ⟨rfl, by decide⟩

/-- C2 (amended): for Project, ExperienceItem and Research, `update`
overwrites ALL fields of the first row matching the key with the payload's
values — the key field included, so a payload carrying a different key
renames the row; for SkillCategory only the non-key fields `icon` and
`skills` are overwritten and `name` is kept. In every kind, no other row is
modified. -/
theorem C2_update_semantics :
    (∀ (pre post : List Project) (row updated : Project) (key : String),
        (∀ p ∈ pre, (p.id == key) = false) → (row.id == key) = true →
        update_project (pre ++ row :: post) key updated = (.ok updated, pre ++ updated :: post))
    ∧ (∀ (pre post : List SkillCategory) (row updated : SkillCategory) (key : String),
        (∀ c ∈ pre, (c.name == key) = false) → (row.name == key) = true →
        update_skill (pre ++ row :: post) key updated
          = (.ok updated,
              pre ++ { name := row.name, icon := updated.icon, skills := updated.skills } :: post))
    ∧ (∀ (pre post : List ExperienceItem) (row updated : ExperienceItem) (key : String),
        (∀ e ∈ pre, (e.role == key) = false) → (row.role == key) = true →
        update_experience (pre ++ row :: post) key updated
          = (.ok updated, pre ++ updated :: post))
    ∧ (∀ (pre post : List Research) (row updated : Research) (key : String),
        (∀ r ∈ pre, (r.title == key) = false) → (row.title == key) = true →
        update_research (pre ++ row :: post) key updated
          = (.ok updated, pre ++ updated :: post)) := by
  refine ⟨?_, ?_, ?_, ?_⟩
  · intro pre post row updated key hpre hrow
    rw [update_project, find?_split_first _ _ _ _ hpre hrow,
      setFirst_split _ _ _ _ _ hpre hrow]
  · intro pre post row updated key hpre hrow
    rw [update_skill, find?_split_first _ _ _ _ hpre hrow,
      setFirst_split _ _ _ _ _ hpre hrow]
  · intro pre post row updated key hpre hrow
    rw [update_experience, find?_split_first _ _ _ _ hpre hrow,
      setFirst_split _ _ _ _ _ hpre hrow]
  · intro pre post row updated key hpre hrow
    rw [update_research, find?_split_first _ _ _ _ hpre hrow,
      setFirst_split _ _ _ _ _ hpre hrow]

/-- C2, witness: the amended theorem applied at concrete inputs — a project
row is replaced wholesale (key renamed to the payload's id) while a skill
category keeps its name and takes the payload's icon and skills. -/
theorem C2_update_semantics_witness :
    update_project [⟨"p1", "t", "d", ["x"], "c", "i", "s"⟩] "p1"
        ⟨"p2", "t2", "d2", ["y"], "c2", "i2", "s2"⟩
      = (.ok ⟨"p2", "t2", "d2", ["y"], "c2", "i2", "s2"⟩,
          [⟨"p2", "t2", "d2", ["y"], "c2", "i2", "s2"⟩])
    ∧ update_skill [⟨"Backend", "gear", [⟨"Python", 90⟩]⟩] "Backend"
        ⟨"Renamed", "cloud", [⟨"Go", 70⟩]⟩
      = (.ok ⟨"Renamed", "cloud", [⟨"Go", 70⟩]⟩,
          [⟨"Backend", "cloud", [⟨"Go", 70⟩]⟩]) := by
  constructor
  · exact C2_update_semantics.1 [] [] ⟨"p1", "t", "d", ["x"], "c", "i", "s"⟩
      ⟨"p2", "t2", "d2", ["y"], "c2", "i2", "s2"⟩ "p1" (by intro p hp; cases hp) (by rfl)
  · exact C2_update_semantics.2.1 [] [] ⟨"Backend", "gear", [⟨"Python", 90⟩]⟩
      ⟨"Renamed", "cloud", [⟨"Go", 70⟩]⟩ "Backend" (by intro c hc; cases hc) (by rfl)

-- -------------------- C3 --------------------

/-- C3: for any stored credential singleton, login succeeds iff both the
username and the password, after stripping surrounding whitespace, equal the
stored values under exact case-sensitive comparison, and fails with the 401
invalid-credentials error otherwise; in particular the spec's example — the
stored pair padded with spaces — logs in successfully. -/
theorem C3_login_trim_iff :
    (∀ u p username password : String,
        login [⟨u, p⟩] username password = .ok "Login successful"
          ↔ (pyStrip username = pyStrip u ∧ pyStrip password = pyStrip p))
    ∧ (∀ u p username password : String,
        login [⟨u, p⟩] username password
            = .error (.http 401 "Invalid username or password")
          ↔ ¬(pyStrip username = pyStrip u ∧ pyStrip password = pyStrip p))
    ∧ login [⟨"a@b.com", "Abc123!"⟩] " a@b.com " " Abc123! " = .ok "Login successful" := by
  refine ⟨?_, ?_, by rfl⟩
  · intro u p username password
    by_cases h1 : pyStrip username = pyStrip u <;>
      by_cases h2 : pyStrip password = pyStrip p <;>
        simp [login, fetch_admin, h1, h2]
  · intro u p username password
    by_cases h1 : pyStrip username = pyStrip u <;>
      by_cases h2 : pyStrip password = pyStrip p <;>
        simp [login, fetch_admin, h1, h2]

/-- C3, witness: applying the iff at a fresh concrete credential. -/
theorem C3_login_trim_iff_witness :
    login [⟨"x@y.com", "Pw1@"⟩] "x@y.com " " Pw1@" = .ok "Login successful" :=
  (C3_login_trim_iff.1 "x@y.com" "Pw1@" "x@y.com " " Pw1@").mpr (by decide)

-- -------------------- C4 --------------------

/-- C4, counterexample: the claim says a request with a valid OTP but
`new_password != confirm_password` fails with `PasswordMismatch`. With the
valid OTP `123456` but policy-violating new password `x`, the pipeline fails
at request validation with the policy error instead. -/
theorem C4_counterexample :
    reset_password_endpoint ⟨[⟨"a@b.com", "Old1@"⟩], [("a@b.com", "123456")]⟩
        ⟨"a@b.com", "123456", "x", "y"⟩
      = (.error (.validation "Password must contain at least 1 uppercase letter"),
          ⟨[⟨"a@b.com", "Old1@"⟩], [("a@b.com", "123456")]⟩)
    ∧ (Failure.validation "Password must contain at least 1 uppercase letter")
        ≠ (Failure.http 400 "Passwords do not match") :=
  ⟨rfl, by decide⟩

/-- C4 (amended): `resetPassword` is atomic — on any failure the state is
returned unchanged, and on success the OTP record for the request's email is
removed (other emails' records untouched) and exactly the matched admin row's
password is replaced by `new_password`; a request with a valid OTP, a
policy-conformant `new_password` and `new_password != confirm_password` fails
with `PasswordMismatch` and does not consume the OTP. -/
theorem C4_reset_atomicity :
    ∀ (s : AuthState) (req : ResetPasswordRequest),
      ((reset_password_endpoint s req).1.isOk = false →
        (reset_password_endpoint s req).2 = s)
      ∧ ((reset_password_endpoint s req).1.isOk = true →
          dictGet (reset_password_endpoint s req).2.otpStore req.email = none
          ∧ (∀ e : String, e ≠ req.email →
              dictGet (reset_password_endpoint s req).2.otpStore e = dictGet s.otpStore e)
          ∧ (∀ (pre post : List AdminCred) (a : AdminCred),
              s.admins = pre ++ a :: post →
              (∀ b ∈ pre, (b.username == req.email) = false) →
              (a.username == req.email) = true →
              (reset_password_endpoint s req).2.admins
                = pre ++ { username := a.username, password := req.new_password } :: post))
      ∧ (dictGet s.otpStore req.email = some req.otp →
          (validate_new_password req.new_password).isOk = true →
          req.new_password ≠ req.confirm_password →
          reset_password_endpoint s req = (.error (.http 400 "Passwords do not match"), s)) := by
  intro s req
  refine ⟨reset_endpoint_error_snd s req, ?_, reset_endpoint_mismatch s req⟩
  intro hok
  cases hp : parseResetPasswordRequest req with
  | error e =>
    rw [show (reset_password_endpoint s req).1 = .error e by
      simp [reset_password_endpoint, hp]] at hok
    simp [Except.isOk, Except.toBool] at hok
  | ok r =>
    have hr : r = req := by
      unfold parseResetPasswordRequest at hp
      cases hv : validate_new_password req.new_password with
      | error e => rw [hv] at hp; cases hp
      | ok w => rw [hv] at hp; exact (Except.ok.inj hp).symm
    rw [hr] at hp
    have hend : reset_password_endpoint s req = reset_password s req := by
      simp [reset_password_endpoint, hp]
    rw [hend] at hok ⊢
    rcases reset_password_cases s req with ⟨hbad, _⟩ | ⟨_, _, _, _, hstate⟩
    · rw [hok] at hbad; cases hbad
    · rw [hstate]
      refine ⟨dictGet_del_self _ _, ?_, ?_⟩
      · intro e he
        exact dictGet_del_ne _ _ _ (fun hx => he hx.symm)
      · intro pre post a hsplit hpre ha
        show setFirst (fun a => a.username == req.email)
            (fun a => { username := a.username, password := req.new_password }) s.admins
          = pre ++ { username := a.username, password := req.new_password } :: post
        rw [hsplit, setFirst_split _ _ _ _ _ hpre ha]

/-- C4, witness: a concrete successful reset — the OTP record is gone and
the admin row carries the new password. -/
theorem C4_reset_atomicity_witness :
    dictGet (reset_password_endpoint ⟨[⟨"a@b.com", "Old1@"⟩], [("a@b.com", "123456")]⟩
        ⟨"a@b.com", "123456", "NewPass1!", "NewPass1!"⟩).2.otpStore "a@b.com" = none
    ∧ (reset_password_endpoint ⟨[⟨"a@b.com", "Old1@"⟩], [("a@b.com", "123456")]⟩
        ⟨"a@b.com", "123456", "NewPass1!", "NewPass1!"⟩).2.admins
      = [⟨"a@b.com", "NewPass1!"⟩] := by
  have h := (C4_reset_atomicity ⟨[⟨"a@b.com", "Old1@"⟩], [("a@b.com", "123456")]⟩
    ⟨"a@b.com", "123456", "NewPass1!", "NewPass1!"⟩).2.1 (by rfl)
  exact ⟨h.1, h.2.2 [] [] ⟨"a@b.com", "Old1@"⟩ rfl (by intro b hb; cases hb) (by rfl)⟩

-- -------------------- C5 --------------------

/-- C5, counterexample: the claim says every subsequent verify or reset call
with the consumed `(email, code)` fails with `InvalidOrExpired`. After a
successful reset consuming the OTP, a second reset request with the same
code but a policy-violating new password fails with the policy validation
error instead of `InvalidOrExpired`. -/
theorem C5_counterexample :
    reset_password_endpoint ⟨[⟨"a@b.com", "Old1@"⟩], [("a@b.com", "123456")]⟩
        ⟨"a@b.com", "123456", "NewPass1!", "NewPass1!"⟩
      = (.ok "Password reset successful", ⟨[⟨"a@b.com", "NewPass1!"⟩], []⟩)
    ∧ reset_password_endpoint ⟨[⟨"a@b.com", "NewPass1!"⟩], []⟩
        ⟨"a@b.com", "123456", "x", "x"⟩
      = (.error (.validation "Password must contain at least 1 uppercase letter"),
          ⟨[⟨"a@b.com", "NewPass1!"⟩], []⟩)
    ∧ (Failure.validation "Password must contain at least 1 uppercase letter")
        ≠ (Failure.http 400 "Invalid or expired OTP") :=
  ⟨rfl, rfl, by decide⟩

/-- C5 (amended): an OTP is single-use — after a successful reset no OTP
record for that email remains; every subsequent `verify` with that email
fails with `InvalidOrExpired`, every subsequent reset request for that email
whose new password passes the policy fails with `InvalidOrExpired`, and a
subsequent reset request whose new password violates the policy fails too
(with the earlier policy validation error); no such call changes state. -/
theorem C5_otp_single_use :
    ∀ (s s2 : AuthState) (req : ResetPasswordRequest) (m : String),
      reset_password_endpoint s req = (.ok m, s2) →
      dictGet s2.otpStore req.email = none
      ∧ (∀ c : String, verify_otp s2 req.email c
          = (.error (.http 400 "Invalid or expired OTP"), s2))
      ∧ (∀ req2 : ResetPasswordRequest, req2.email = req.email →
          (validate_new_password req2.new_password).isOk = true →
          reset_password_endpoint s2 req2
            = (.error (.http 400 "Invalid or expired OTP"), s2))
      ∧ (∀ req2 : ResetPasswordRequest,
          (validate_new_password req2.new_password).isOk = false →
          (reset_password_endpoint s2 req2).1.isOk = false
          ∧ (reset_password_endpoint s2 req2).2 = s2) := by
  intro s s2 req m hrun
  have hnone : dictGet s2.otpStore req.email = none := by
    cases hp : parseResetPasswordRequest req with
    | error e =>
      rw [show reset_password_endpoint s req = (.error e, s) by
        simp [reset_password_endpoint, hp]] at hrun
      simp at hrun
    | ok r =>
      have hr : r = req := by
        unfold parseResetPasswordRequest at hp
        cases hv : validate_new_password req.new_password with
        | error e2 => rw [hv] at hp; cases hp
        | ok w => rw [hv] at hp; exact (Except.ok.inj hp).symm
      rw [hr] at hp
      have hend : reset_password s req = (.ok m, s2) := by
        rw [show reset_password_endpoint s req = reset_password s req by
          simp [reset_password_endpoint, hp]] at hrun
        exact hrun
      rcases reset_password_cases s req with ⟨hbad, _⟩ | ⟨_, _, _, _, hstate⟩
      · rw [hend] at hbad; simp [Except.isOk, Except.toBool] at hbad
      · rw [hend] at hstate
        have h2 : s2.otpStore = dictDel s.otpStore req.email :=
          congrArg AuthState.otpStore hstate
        rw [h2]
        exact dictGet_del_self _ _
  refine ⟨hnone, ?_, ?_, ?_⟩
  · intro c
    simp [verify_otp, hnone]
  · intro req2 he hv
    have hp2 := parse_ok_of_valid req2 hv
    have hn2 : dictGet s2.otpStore req2.email = none := by rw [he]; exact hnone
    simp [reset_password_endpoint, hp2, reset_password, hn2]
  · intro req2 hv
    cases hv2 : validate_new_password req2.new_password with
    | ok w => rw [hv2] at hv; simp [Except.isOk, Except.toBool] at hv
    | error e =>
      have hp2 := parse_error req2 e hv2
      constructor <;> simp [reset_password_endpoint, hp2, Except.isOk, Except.toBool]

/-- C5, witness: after the concrete successful reset, the OTP record is gone
and re-verifying the consumed code fails. -/
theorem C5_otp_single_use_witness :
    dictGet (⟨[⟨"a@b.com", "NewPass1!"⟩], []⟩ : AuthState).otpStore "a@b.com" = none
    ∧ verify_otp ⟨[⟨"a@b.com", "NewPass1!"⟩], []⟩ "a@b.com" "123456"
      = (.error (.http 400 "Invalid or expired OTP"),
          ⟨[⟨"a@b.com", "NewPass1!"⟩], []⟩) := by
  have h := C5_otp_single_use ⟨[⟨"a@b.com", "Old1@"⟩], [("a@b.com", "123456")]⟩
    ⟨[⟨"a@b.com", "NewPass1!"⟩], []⟩ ⟨"a@b.com", "123456", "NewPass1!", "NewPass1!"⟩
    "Password reset successful" (by rfl)
  exact ⟨h.1, h.2.1 "123456"⟩

-- -------------------- C6 --------------------

/-- C6, counterexample: the claim says a request whose `(email, otp)` does
not match a live OTP record yields `InvalidOrExpired` regardless of the
content of `new_password`. With no live OTP record at all and the
policy-violating new password `abc`, the pipeline instead fails at request
validation with the policy error. -/
theorem C6_counterexample :
    reset_password_endpoint ⟨[⟨"a@b.com", "Old1@"⟩], []⟩
        ⟨"a@b.com", "000000", "abc", "abc"⟩
      = (.error (.validation "Password must contain at least 1 uppercase letter"),
          ⟨[⟨"a@b.com", "Old1@"⟩], []⟩)
    ∧ (Failure.validation "Password must contain at least 1 uppercase letter")
        ≠ (Failure.http 400 "Invalid or expired OTP") :=
  ⟨rfl, by decide⟩

/-- C6 (amended): the password-policy check runs first, at request
validation, before the OTP check: a request whose `new_password` violates
the policy fails with that policy error regardless of the OTP store and
changes nothing; only for requests whose `new_password` passes the policy
(≥1 uppercase ASCII letter, ≥1 digit, ≥1 character of `@$!%*?&` — no
minimum length, e.g. the 3-character `A1@` passes) does a non-matching
`(email, otp)` yield `InvalidOrExpired`. -/
theorem C6_policy_checked_first :
    (∀ (s : AuthState) (req : ResetPasswordRequest) (e : Failure),
        validate_new_password req.new_password = .error e →
        reset_password_endpoint s req = (.error e, s))
    ∧ (∀ (s : AuthState) (req : ResetPasswordRequest),
        (validate_new_password req.new_password).isOk = true →
        dictGet s.otpStore req.email ≠ some req.otp →
        reset_password_endpoint s req
          = (.error (.http 400 "Invalid or expired OTP"), s))
    ∧ (validate_new_password "A1@").isOk = true := by
  refine ⟨?_, ?_, by rfl⟩
  · intro s req e he
    simp [reset_password_endpoint, parse_error req e he]
  · intro s req hv hne
    have hp := parse_ok_of_valid req hv
    cases hg : dictGet s.otpStore req.email with
    | none => simp [reset_password_endpoint, hp, reset_password, hg]
    | some code =>
      have hcode : code ≠ req.otp := by
        intro hx
        exact hne (by rw [hg, hx])
      simp [reset_password_endpoint, hp, reset_password, hg, hcode]

/-- C6, witness: both branches at concrete inputs — a policy-violating
password is rejected by validation even though a matching OTP is live, and a
policy-valid password with a wrong OTP yields the OTP error. -/
theorem C6_policy_checked_first_witness :
    reset_password_endpoint ⟨[⟨"a@b.com", "Old1@"⟩], [("a@b.com", "777777")]⟩
        ⟨"a@b.com", "777777", "lowercase1@", "lowercase1@"⟩
      = (.error (.validation "Password must contain at least 1 uppercase letter"),
          ⟨[⟨"a@b.com", "Old1@"⟩], [("a@b.com", "777777")]⟩)
    ∧ reset_password_endpoint ⟨[⟨"a@b.com", "Old1@"⟩], [("a@b.com", "777777")]⟩
        ⟨"a@b.com", "111111", "Fine1@", "Fine1@"⟩
      = (.error (.http 400 "Invalid or expired OTP"),
          ⟨[⟨"a@b.com", "Old1@"⟩], [("a@b.com", "777777")]⟩) := by
  constructor
  · exact C6_policy_checked_first.1 ⟨[⟨"a@b.com", "Old1@"⟩], [("a@b.com", "777777")]⟩
      ⟨"a@b.com", "777777", "lowercase1@", "lowercase1@"⟩
      (.validation "Password must contain at least 1 uppercase letter") (by rfl)
  · exact C6_policy_checked_first.2.1 ⟨[⟨"a@b.com", "Old1@"⟩], [("a@b.com", "777777")]⟩
      ⟨"a@b.com", "111111", "Fine1@", "Fine1@"⟩ (by rfl) (by decide)

-- -------------------- C7 --------------------

/-- C7: re-issuance overwrites — after two successive successful OTP
issuances with codes `c1` then `c2` (both for the registered admin email,
`c1 ≠ c2`), exactly one OTP record exists for that email, it holds `c2`,
`verify` with `c2` succeeds and `verify` with `c1` fails. -/
theorem C7_reissue_overwrites :
    ∀ (s : AuthState) (email c1 c2 : String),
      (fetch_admin s.admins).username = email →
      c1 ≠ c2 →
      (forgot_password s email c1 true).1 = .ok "OTP sent to email"
      ∧ (forgot_password (forgot_password s email c1 true).2 email c2 true).1
          = .ok "OTP sent to email"
      ∧ dictGet (forgot_password (forgot_password s email c1 true).2 email c2
            true).2.otpStore email = some c2
      ∧ ((forgot_password (forgot_password s email c1 true).2 email c2
            true).2.otpStore.filter (fun kv => kv.fst == email)).length = 1
      ∧ verify_otp (forgot_password (forgot_password s email c1 true).2 email c2 true).2
            email c2
          = (.ok "OTP verified",
              (forgot_password (forgot_password s email c1 true).2 email c2 true).2)
      ∧ (verify_otp (forgot_password (forgot_password s email c1 true).2 email c2 true).2
            email c1).1
          = .error (.http 400 "Invalid or expired OTP") := by
  intro s email c1 c2 h hne
  have h21 : c2 ≠ c1 := Ne.symm hne
  have hs1 : forgot_password s email c1 true
      = (.ok "OTP sent to email", ⟨s.admins, dictSet s.otpStore email c1⟩) := by
    simp [forgot_password, h]
  have hs2 : forgot_password ⟨s.admins, dictSet s.otpStore email c1⟩ email c2 true
      = (.ok "OTP sent to email",
          ⟨s.admins, dictSet (dictSet s.otpStore email c1) email c2⟩) := by
    simp [forgot_password, h]
  refine ⟨by rw [hs1], by rw [hs1, hs2], ?_, ?_, ?_, ?_⟩
  · rw [hs1, hs2]
    exact dictGet_set_self _ _ _
  · rw [hs1, hs2]
    show ((dictSet (dictSet s.otpStore email c1) email c2).filter
      (fun kv => kv.fst == email)).length = 1
    rw [filter_dictSet]
    rfl
  · rw [hs1, hs2]
    show verify_otp _ email c2 = _
    simp [verify_otp, dictGet_set_self]
  · rw [hs1, hs2]
    show (verify_otp _ email c1).1 = _
    simp [verify_otp, dictGet_set_self, h21]

/-- C7, witness: concrete double issuance — only the second code verifies. -/
theorem C7_reissue_overwrites_witness :
    verify_otp ⟨[⟨"a@b.com", "Pass1@"⟩], [("a@b.com", "222222")]⟩ "a@b.com" "222222"
      = (.ok "OTP verified", ⟨[⟨"a@b.com", "Pass1@"⟩], [("a@b.com", "222222")]⟩)
    ∧ (verify_otp ⟨[⟨"a@b.com", "Pass1@"⟩], [("a@b.com", "222222")]⟩
          "a@b.com" "111111").1
      = .error (.http 400 "Invalid or expired OTP") := by
  have h := C7_reissue_overwrites ⟨[⟨"a@b.com", "Pass1@"⟩], []⟩ "a@b.com"
    "111111" "222222" (by rfl) (by decide)
  exact ⟨h.2.2.2.2.1, h.2.2.2.2.2⟩

-- -------------------- C8 --------------------

/-- C8: `verify(email, code)` succeeds iff an OTP record for `email` exists
with exactly that stored code, fails with `InvalidOrExpired` otherwise,
never mutates any state, and repeating it gives the same result. -/
theorem C8_verify_pure_iff :
    ∀ (s : AuthState) (email code : String),
      (verify_otp s email code).2 = s
      ∧ ((verify_otp s email code).1 = .ok "OTP verified"
          ↔ dictGet s.otpStore email = some code)
      ∧ ((verify_otp s email code).1 = .error (.http 400 "Invalid or expired OTP")
          ↔ dictGet s.otpStore email ≠ some code)
      ∧ verify_otp ((verify_otp s email code).2) email code = verify_otp s email code := by
  intro s email code
  refine ⟨verify_otp_snd s email code, ?_, ?_, by rw [verify_otp_snd]⟩
  · cases hg : dictGet s.otpStore email with
    | none => simp [verify_otp, hg]
    | some c =>
      by_cases hc : c = code
      · simp [verify_otp, hg, hc]
      · simp [verify_otp, hg, hc]
  · cases hg : dictGet s.otpStore email with
    | none => simp [verify_otp, hg]
    | some c =>
      by_cases hc : c = code
      · simp [verify_otp, hg, hc]
      · simp [verify_otp, hg, hc]

/-- C8, witness: the iff applied at a concrete store with a matching code. -/
theorem C8_verify_pure_iff_witness :
    (verify_otp ⟨[], [("a@b.com", "999999")]⟩ "a@b.com" "999999").1
      = .ok "OTP verified" :=
  ((C8_verify_pure_iff ⟨[], [("a@b.com", "999999")]⟩ "a@b.com" "999999").2.1).mpr (by rfl)

-- -------------------- trace lemmas for C9 --------------------

theorem update_admin_otpStore (s : AuthState) (a b c d : String) :
    (update_admin s a b c d).2.otpStore = s.otpStore := by
  cases hf : s.admins.find? (fun x => x.username == a) with
  | none => simp [update_admin, hf]
  | some x =>
    by_cases hp : b = x.password
    · simp [update_admin, hf, hp]
    · simp [update_admin, hf, hp]

theorem forgot_otp_preserve (s : AuthState) (e2 c : String) (ok : Bool) (e : String)
    (hne : e2 ≠ e) :
    dictGet (forgot_password s e2 c ok).2.otpStore e = dictGet s.otpStore e := by
  cases hb : (e2 != (fetch_admin s.admins).username) with
  | true => simp [forgot_password, hb]
  | false =>
    cases ok <;> simp [forgot_password, hb, dictGet_set_ne s.otpStore e2 c e hne]

theorem parse_ok_inv (r r2 : ResetPasswordRequest)
    (h : parseResetPasswordRequest r = .ok r2) : r2 = r := by
  unfold parseResetPasswordRequest at h
  cases hv : validate_new_password r.new_password with
  | error e => rw [hv] at h; cases h
  | ok w => rw [hv] at h; exact (Except.ok.inj h).symm

theorem reset_otp_preserve (s : AuthState) (req : ResetPasswordRequest) (e : String)
    (hne : req.email ≠ e) :
    dictGet (reset_password_endpoint s req).2.otpStore e = dictGet s.otpStore e := by
  cases hp : parseResetPasswordRequest req with
  | error er => simp [reset_password_endpoint, hp]
  | ok r =>
    have hr := parse_ok_inv req r hp
    rw [hr] at hp
    have hend : (reset_password_endpoint s req).2 = (reset_password s req).2 := by
      simp [reset_password_endpoint, hp]
    rw [hend]
    rcases reset_password_cases s req with ⟨_, h2⟩ | ⟨_, _, _, _, hstate⟩
    · rw [h2]
    · rw [hstate]
      exact dictGet_del_ne s.otpStore req.email e hne

theorem applyOp_otp_preserve (op : AuthOp) (s : AuthState) (e : String)
    (h : touchesOtp e op = false) :
    dictGet (applyOp op s).otpStore e = dictGet s.otpStore e := by
  cases op with
  | forgot e2 c ok =>
    have hne : e2 ≠ e := by simpa [touchesOtp] using h
    exact forgot_otp_preserve s e2 c ok e hne
  | verify e2 c => simp [applyOp, verify_otp_snd]
  | reset req =>
    have hne : req.email ≠ e := by simpa [touchesOtp] using h
    exact reset_otp_preserve s req e hne
  | loginReq u p => rfl
  | updateAdmin a b c d => simp [applyOp, update_admin_otpStore]

theorem runTimed_eq_runOps (timed : List (AuthOp × Nat)) (s : AuthState) :
    runTimed timed s = runOps (timed.map Prod.fst) s := by
  induction timed generalizing s with
  | nil => rfl
  | cons p t ih =>
    show runTimed t (applyTimedOp p.fst p.snd s) = runOps (t.map Prod.fst) (applyOp p.fst s)
    exact ih (applyOp p.fst s)

theorem runOps_otp_preserve (ops : List AuthOp) (s : AuthState) (e : String)
    (h : ∀ op ∈ ops, touchesOtp e op = false) :
    dictGet (runOps ops s).otpStore e = dictGet s.otpStore e := by
  induction ops generalizing s with
  | nil => rfl
  | cons op t ih =>
    have h1 : touchesOtp e op = false := h op (by simp)
    have h2 : ∀ o ∈ t, touchesOtp e o = false := fun o ho => h o (by simp [ho])
    show dictGet (runOps t (applyOp op s)).otpStore e = dictGet s.otpStore e
    rw [ih (applyOp op s) h2, applyOp_otp_preserve op s e h1]

-- -------------------- C9 --------------------

/-- C9: the advertised 5-minute OTP validity window is not enforced — the
handlers consult no clock, so a timed trace of requests produces exactly the
state of the untimed trace (outcomes are independent of all arrival times),
and an OTP that is neither consumed nor overwritten survives any sequence of
operations not touching its email: `verify` still succeeds with it and it
still gates a successful password reset, with no expiry-based transition
ever invalidating it. -/
theorem C9_no_expiry_enforced :
    ∀ (s : AuthState) (email c : String) (timed : List (AuthOp × Nat)),
      dictGet s.otpStore email = some c →
      (∀ p ∈ timed, touchesOtp email p.fst = false) →
      runTimed timed s = runOps (timed.map Prod.fst) s
      ∧ dictGet (runTimed timed s).otpStore email = some c
      ∧ (verify_otp (runTimed timed s) email c).1 = .ok "OTP verified"
      ∧ (∀ npw : String,
          (validate_new_password npw).isOk = true →
          ((runTimed timed s).admins.find? (fun a => a.username == email)).isSome = true →
          (reset_password_endpoint (runTimed timed s) ⟨email, c, npw, npw⟩).1
            = .ok "Password reset successful") := by
  intro s email c timed hlive htouch
  have heq := runTimed_eq_runOps timed s
  have hall : ∀ op ∈ timed.map Prod.fst, touchesOtp email op = false := by
    intro op hop
    rcases List.mem_map.mp hop with ⟨p, hp, rfl⟩
    exact htouch p hp
  have hpres : dictGet (runTimed timed s).otpStore email = some c := by
    rw [heq, runOps_otp_preserve (timed.map Prod.fst) s email hall]
    exact hlive
  refine ⟨heq, hpres, by simp [verify_otp, hpres], ?_⟩
  intro npw hv hfind
  have hp := parse_ok_of_valid (⟨email, c, npw, npw⟩ : ResetPasswordRequest) hv
  cases hf : (runTimed timed s).admins.find? (fun a => a.username == email) with
  | none => rw [hf] at hfind; cases hfind
  | some a => simp [reset_password_endpoint, hp, reset_password, hpres, hf]

/-- C9, witness: a concrete OTP issued into the store survives a later
verify, a login and an admin-password change and a foreign-email issuance
attempt, with arbitrary widely spaced timestamps; far beyond the advertised
5 minutes it still verifies and still lets the reset succeed. -/
theorem C9_no_expiry_enforced_witness :
    (verify_otp ⟨[⟨"a@b.com", "Mid2@"⟩], [("a@b.com", "123456")]⟩
        "a@b.com" "123456").1 = .ok "OTP verified"
    ∧ (reset_password_endpoint ⟨[⟨"a@b.com", "Mid2@"⟩], [("a@b.com", "123456")]⟩
        ⟨"a@b.com", "123456", "NewPass1!", "NewPass1!"⟩).1
      = .ok "Password reset successful" := by
  have h := C9_no_expiry_enforced ⟨[⟨"a@b.com", "Old1@"⟩], [("a@b.com", "123456")]⟩
    "a@b.com" "123456"
    [(.verify "a@b.com" "123456", 0), (.loginReq "a@b.com" "Old1@", 400),
      (.updateAdmin "a@b.com" "Old1@" "a@b.com" "Mid2@", 100000),
      (.forgot "other@x.com" "999999" true, 200000)]
    (by rfl) (by decide)
  exact ⟨h.2.2.1, h.2.2.2 "NewPass1!" (by rfl) (by rfl)⟩

-- -------------------- C10 --------------------

/-- C10, counterexample: the claim says that whenever `new_password` is
policy-conformant and differs from `confirm_password` the outcome is
`PasswordMismatch`; with no live OTP record the same request yields
`InvalidOrExpired` instead. -/
theorem C10_counterexample :
    reset_password_endpoint ⟨[⟨"a@b.com", "Old1@"⟩], []⟩
        ⟨"a@b.com", "123456", "Good1@", "bad"⟩
      = (.error (.http 400 "Invalid or expired OTP"), ⟨[⟨"a@b.com", "Old1@"⟩], []⟩)
    ∧ (Failure.http 400 "Invalid or expired OTP")
        ≠ (Failure.http 400 "Passwords do not match") :=
  ⟨rfl, by decide⟩

/-- C10 (amended): the password policy is enforced only on `new_password`,
never on `confirm_password` — the pipeline's outcome depends on
`confirm_password` only through the equality test against `new_password`
(so two requests whose confirm values compare identically to the new
password behave identically), request validation ignores `confirm_password`
entirely, and given a live matching OTP a policy-conformant `new_password`
differing from `confirm_password` yields `PasswordMismatch`. -/
theorem C10_confirm_not_policy_checked :
    ∀ (s : AuthState) (req : ResetPasswordRequest) (c c2 : String),
      ((req.new_password == c) = (req.new_password == c2) →
        reset_password_endpoint s { req with confirm_password := c }
          = reset_password_endpoint s { req with confirm_password := c2 })
      ∧ (parseResetPasswordRequest { req with confirm_password := c }).isOk
          = (parseResetPasswordRequest req).isOk
      ∧ (dictGet s.otpStore req.email = some req.otp →
          (validate_new_password req.new_password).isOk = true →
          req.new_password ≠ req.confirm_password →
          (reset_password_endpoint s req).1 = .error (.http 400 "Passwords do not match")) := by
  intro s req c c2
  refine ⟨?_, ?_, ?_⟩
  · intro hb
    cases hv : validate_new_password req.new_password with
    | error e =>
      have h1 := parse_error { req with confirm_password := c } e hv
      have h2 := parse_error { req with confirm_password := c2 } e hv
      simp [reset_password_endpoint, h1, h2]
    | ok w =>
      have hv2 : (validate_new_password req.new_password).isOk = true := by
        rw [hv]; rfl
      have hp1 := parse_ok_of_valid { req with confirm_password := c } hv2
      have hp2 := parse_ok_of_valid { req with confirm_password := c2 } hv2
      cases hg : dictGet s.otpStore req.email with
      | none => simp [reset_password_endpoint, hp1, hp2, reset_password, hg]
      | some code =>
        by_cases hc : code = req.otp
        · by_cases hm : req.new_password = c
          · have hm2 : req.new_password = c2 := by
              have hx : (req.new_password == c2) = true := by rw [← hb]; simp [hm]
              simpa using hx
            rw [show c = c2 from hm.symm.trans hm2]
          · have hm2 : req.new_password ≠ c2 := by
              intro hx
              have hy : (req.new_password == c) = true := by rw [hb]; simp [hx]
              exact hm (by simpa using hy)
            simp [reset_password_endpoint, hp1, hp2, reset_password, hg, hc, hm, hm2]
        · simp [reset_password_endpoint, hp1, hp2, reset_password, hg, hc]
  · cases hv : validate_new_password req.new_password with
    | error e => simp [parseResetPasswordRequest, hv]
    | ok w => simp [parseResetPasswordRequest, hv, Except.isOk, Except.toBool]
  · intro hotp hval hne
    rw [reset_endpoint_mismatch s req hotp hval hne]

/-- C10, witness: two requests with different (both policy-violating)
confirm values behave identically — here both yield the mismatch error. -/
theorem C10_confirm_not_policy_checked_witness :
    reset_password_endpoint ⟨[⟨"a@b.com", "Old1@"⟩], [("a@b.com", "123456")]⟩
        ⟨"a@b.com", "123456", "Good1@", "bad"⟩
      = reset_password_endpoint ⟨[⟨"a@b.com", "Old1@"⟩], [("a@b.com", "123456")]⟩
        ⟨"a@b.com", "123456", "Good1@", "nope"⟩ :=
  (C10_confirm_not_policy_checked ⟨[⟨"a@b.com", "Old1@"⟩], [("a@b.com", "123456")]⟩
    ⟨"a@b.com", "123456", "Good1@", "zzz"⟩ "bad" "nope").1 (by rfl)

end Portfolio
